import Mathlib

/-!
Shallow embedding of the data-quality validation core of this repository:
`src/quality_check.py` (class `DataQualityChecker`) and
`src/api_validator.py` (class `APIValidator`).

Modelling conventions:
* pandas DataFrames become `DataFrame`: a list of named columns, each with a
  dtype string (as produced by `str(series.dtype)`) and a list of cells, a
  cell being `Option Scalar` with `none` standing for a null/NaN entry.
* Python scalars for the dictionary-validation path become `Scalar`; their
  runtime types become `PyType`, with `isinstance` modelled by `isInstance`
  (including the fact that Python `bool` is a subclass of `int`).
* Mutable instance state (`self.issues`, `self.results`) is threaded
  explicitly: each method becomes a function from state to result × state.
* Python dicts with a fixed key set become structures; keys that are present
  only on some paths become `Option` fields (`none` = key absent).
* `try`/`except` orchestration is modelled by parameterising the validator
  over the outcome of the guarded call, an `Except String` value: `.error e`
  stands for the guarded body raising an exception with description `e`.
* Floating-point message formatting is approximated with `toString` on `Rat`;
  no theorem below depends on the exact rendered text of a message.
-/

namespace DataQuality

/-- Runtime type tags for Python scalar values (the dictionary path). -/
inductive PyType where
  | str
  | int
  | float
  | bool
  | datetime
  | noneType
  deriving DecidableEq, Repr

/-- Python scalar values appearing in structured (dictionary) records. -/
inductive Scalar where
  | str (s : String)
  | int (n : Int)
  | float (q : Rat)
  | bool (b : Bool)
  | datetime (s : String)
  | pynone
  deriving DecidableEq, Repr

/-- `type(v)` for a scalar. -/
def typeOf : Scalar → PyType
  | .str _ => .str
  | .int _ => .int
  | .float _ => .float
  | .bool _ => .bool
  | .datetime _ => .datetime
  | .pynone => .noneType

/-- `type(v).__name__`. -/
def pyTypeName : PyType → String
  | .str => "str"
  | .int => "int"
  | .float => "float"
  | .bool => "bool"
  | .datetime => "datetime"
  | .noneType => "NoneType"

/-- Python `isinstance(v, t)` for a single type: true on exact runtime type,
and additionally `bool` values are instances of `int` (subclassing). -/
def isInstance (v : Scalar) (t : PyType) : Bool :=
  match typeOf v, t with
  | .bool, .int => true
  | a, b => a == b

/-- An expected type in a schema: a single type or a tuple of acceptable
types, as in `'temperature': (int, float)`. -/
inductive Expected where
  | single (t : PyType)
  | tuple (ts : List PyType)
  deriving DecidableEq, Repr

/-! ## DataFrame model -/

/-- One column of a DataFrame: its name, its dtype as rendered by
`str(series.dtype)`, and its cells (`none` = null/NaN). -/
structure Column where
  name : String
  dtype : String
  values : List (Option Scalar)
  deriving DecidableEq, Repr

/-- A pandas DataFrame: a list of columns (all of equal length in any frame
pandas can actually build). -/
structure DataFrame where
  columns : List Column
  deriving DecidableEq, Repr

/-- `len(df)`: the number of rows (length of the first column; `0` for a
frame with no columns). -/
def DataFrame.nrows (df : DataFrame) : Nat :=
  match df.columns with
  | [] => 0
  | c :: _ => c.values.length

/-- Row `i` of the frame, as the tuple of cells across columns
(`List.get?` so the definition is total; on well-formed frames every lookup
is in bounds). -/
def DataFrame.row (df : DataFrame) (i : Nat) : List (Option (Option Scalar)) :=
  df.columns.map (fun c => c.values.get? i)

/-- `df.duplicated().sum()`: the number of rows equal to some earlier row
(pandas marks all but the first occurrence; NaN entries compare equal for
this purpose, as `none = none` does here). -/
def duplicateCount (df : DataFrame) : Nat :=
  (List.range df.nrows).countP
    (fun i => (List.range i).any (fun j => df.row j == df.row i))

/-- The fraction of missing entries in a column:
`df.isnull().sum() / len(df)` for that column, as a rational (`mkRat`, the
kernel-computable form of the division).  pandas produces NaN when the
frame has zero rows; here the fraction is `0` in that case, and no theorem
relies on that corner. -/
def missingFraction (df : DataFrame) (c : Column) : Rat :=
  mkRat (c.values.countP (fun v => v.isNone)) df.nrows

/-! ## DataQualityChecker -/

/-- The checker's instance state: the optionally bound DataFrame
(`self.data`) and the accumulated issue log (`self.issues`). -/
@[ext]
structure DataQualityChecker where
  data : Option DataFrame
  issues : List String
  deriving DecidableEq, Repr

/-- The result dictionary returned by one individual check.  Keys that a
given check does not emit are `none`. -/
@[ext]
structure CheckOutput where
  passed : Bool
  message : String
  columns_with_issues : Option (List (String × Rat))
  duplicate_rows : Option Nat
  type_mismatches : Option (List (String × String))
  row_count : Option Nat
  deriving DecidableEq, Repr

/-- `if not output["passed"]: self.issues.append(output["message"])`. -/
def logIfFailed (c : DataQualityChecker) (out : CheckOutput) : DataQualityChecker :=
  if out.passed then c else { c with issues := c.issues ++ [out.message] }

/-- The output dictionary of `check_missing_values` as a function of the
bound data (the early `None` return included). -/
def missingValuesResult (d : Option DataFrame) (threshold : Rat) : CheckOutput :=
  match d with
  | none =>
      { passed := false, message := "No data provided"
      , columns_with_issues := none, duplicate_rows := none
      , type_mismatches := none, row_count := none }
  | some df =>
      let problematic := df.columns.filter (fun col => threshold < missingFraction df col)
      { passed := problematic.length == 0
      , message := "Columns with more than "
          ++ toString (mkRat (threshold.num * 100) threshold.den)
          ++ "% missing values: " ++ toString (problematic.map (fun col => col.name))
      , columns_with_issues := some (problematic.map (fun col => (col.name, missingFraction df col)))
      , duplicate_rows := none, type_mismatches := none, row_count := none }

/-- `DataQualityChecker.check_missing_values`: early return when no data is
bound (note: without logging), otherwise compute the output and log the
message exactly when the check failed. -/
def check_missing_values (c : DataQualityChecker) (threshold : Rat) :
    CheckOutput × DataQualityChecker :=
  match c.data with
  | none => (missingValuesResult none threshold, c)
  | some df =>
      let out := missingValuesResult (some df) threshold
      (out, logIfFailed c out)

/-- The output dictionary of `check_duplicates`. -/
def duplicatesResult (d : Option DataFrame) : CheckOutput :=
  match d with
  | none =>
      { passed := false, message := "No data provided"
      , columns_with_issues := none, duplicate_rows := none
      , type_mismatches := none, row_count := none }
  | some df =>
      { passed := duplicateCount df == 0
      , message := "Number of duplicate rows found: " ++ toString (duplicateCount df)
      , columns_with_issues := none, duplicate_rows := some (duplicateCount df)
      , type_mismatches := none, row_count := none }

/-- `DataQualityChecker.check_duplicates`. -/
def check_duplicates (c : DataQualityChecker) : CheckOutput × DataQualityChecker :=
  match c.data with
  | none => (duplicatesResult none, c)
  | some df =>
      let out := duplicatesResult (some df)
      (out, logIfFailed c out)

/-- A column dtype expectation: a single dtype string or a tuple of
acceptable dtype strings, e.g. `'current_price': ('float64', 'int64')`. -/
inductive DtypeSpec where
  | single (t : String)
  | tuple (ts : List String)
  deriving DecidableEq, Repr

/-- The per-column mismatch entries accumulated by `check_data_types`. -/
def typeMismatchesOf (df : DataFrame) (expected_types : List (String × DtypeSpec)) :
    List (String × String) :=
  expected_types.filterMap (fun p =>
    match df.columns.find? (fun c => c.name == p.1) with
    | none => some (p.1, "Column " ++ p.1 ++ " not found")
    | some col =>
        match p.2 with
        | .tuple ts =>
            if ts.contains col.dtype then none
            else some (p.1, "Expected one of " ++ toString ts ++ ", found " ++ col.dtype)
        | .single t =>
            if col.dtype == t then none
            else some (p.1, "Expected " ++ t ++ ", found " ++ col.dtype))

/-- The output dictionary of `check_data_types`. -/
def dataTypesResult (d : Option DataFrame) (expected_types : List (String × DtypeSpec)) :
    CheckOutput :=
  match d with
  | none =>
      { passed := false, message := "No data provided"
      , columns_with_issues := none, duplicate_rows := none
      , type_mismatches := none, row_count := none }
  | some df =>
      let mismatches := typeMismatchesOf df expected_types
      { passed := mismatches.length == 0
      , message := "Data type mismatches found: " ++ toString mismatches.length
      , columns_with_issues := none, duplicate_rows := none
      , type_mismatches := some mismatches, row_count := none }

/-- `DataQualityChecker.check_data_types`. -/
def check_data_types (c : DataQualityChecker) (expected_types : List (String × DtypeSpec)) :
    CheckOutput × DataQualityChecker :=
  match c.data with
  | none => (dataTypesResult none expected_types, c)
  | some df =>
      let out := dataTypesResult (some df) expected_types
      (out, logIfFailed c out)

/-- The output dictionary of `check_empty_dataset` (its `None` branch also
carries `row_count: 0`). -/
def emptyDatasetResult (d : Option DataFrame) : CheckOutput :=
  match d with
  | none =>
      { passed := false, message := "No data provided"
      , columns_with_issues := none, duplicate_rows := none
      , type_mismatches := none, row_count := some 0 }
  | some df =>
      { passed := !(df.nrows == 0)
      , message := if df.nrows == 0 then "Dataset is empty" else "Dataset is not empty"
      , columns_with_issues := none, duplicate_rows := none
      , type_mismatches := none, row_count := some df.nrows }

/-- `DataQualityChecker.check_empty_dataset`. -/
def check_empty_dataset (c : DataQualityChecker) : CheckOutput × DataQualityChecker :=
  match c.data with
  | none => (emptyDatasetResult none, c)
  | some df =>
      let out := emptyDatasetResult (some df)
      (out, logIfFailed c out)

/-- The ValidationReport returned by `run_all_checks`: overall verdict, the
issue log as of return, and the per-check results in insertion order. -/
@[ext]
structure Report where
  validation_passed : Bool
  issues_found : List String
  detailed_results : List (String × CheckOutput)
  deriving DecidableEq, Repr

/-- `DataQualityChecker.run_all_checks`: run empty/missing/duplicates always,
`check_data_types` only when `expected_types` is truthy (a non-`None`,
non-empty dict), then take the conjunction over all results present. -/
def run_all_checks (c : DataQualityChecker)
    (expected_types : Option (List (String × DtypeSpec))) (missing_value_threshold : Rat) :
    Report × DataQualityChecker :=
  let r1 := check_empty_dataset c
  let r2 := check_missing_values r1.2 missing_value_threshold
  let r3 := check_duplicates r2.2
  match expected_types with
  | some (s :: ss) =>
      let r4 := check_data_types r3.2 (s :: ss)
      let detailed := [("empty_dataset", r1.1), ("missing_values", r2.1),
        ("duplicates", r3.1), ("data_types", r4.1)]
      ({ validation_passed := detailed.all (fun p => p.2.passed)
       , issues_found := r4.2.issues, detailed_results := detailed }, r4.2)
  | _ =>
      let detailed := [("empty_dataset", r1.1), ("missing_values", r2.1),
        ("duplicates", r3.1)]
      ({ validation_passed := detailed.all (fun p => p.2.passed)
       , issues_found := r3.2.issues, detailed_results := detailed }, r3.2)

/-! ## validate_dict (structured record path) -/

/-- The `details` dictionary returned by `validate_dict`
(`errors` is `None` when the error dict is empty). -/
structure DictDetails where
  errors : Option (List (String × String))
  fields_validated : Nat
  fields_passed : Nat
  deriving DecidableEq, Repr

/-- The error message (if any) `validate_dict` records for one schema field
against a record: missing field, or value whose runtime type is not among
the expected type(s).  Message text approximates Python's
`f"Expected type {...}, got {...}"` rendering. -/
def fieldError (data_dict : List (String × Scalar)) (field : String) (exp : Expected) :
    Option String :=
  match data_dict.lookup field with
  | none => some ("Missing required field: " ++ field)
  | some v =>
      match exp with
      | .tuple ts =>
          if ts.any (fun t => isInstance v t) then none
          else some ("Expected type (" ++ toString (ts.map pyTypeName) ++ "), got "
            ++ pyTypeName (typeOf v))
      | .single t =>
          if isInstance v t then none
          else some ("Expected type " ++ pyTypeName t ++ ", got " ++ pyTypeName (typeOf v))

/-- The `errors` dictionary accumulated by the schema loop of
`validate_dict` (one entry per failing field, in schema order). -/
def validateDictErrors (data_dict : List (String × Scalar))
    (schema : List (String × Expected)) : List (String × String) :=
  schema.filterMap (fun p => (fieldError data_dict p.1 p.2).map (fun m => (p.1, m)))

/-- `DataQualityChecker.validate_dict`: returns `(is_valid, details)`;
touches no checker state. -/
def validate_dict (data_dict : List (String × Scalar))
    (schema : List (String × Expected)) : Bool × DictDetails :=
  let errors := validateDictErrors data_dict schema
  (errors.length == 0,
   { errors := if errors.isEmpty then none else some errors
   , fields_validated := schema.length
   , fields_passed := schema.length - errors.length })

/-! ## APIValidator -/

/-- A value handed to `validate_weather_data`.  The type annotation says
`Dict`, but Python does not enforce it, so a malformed shape (here: an
`int`, which is not iterable, or `None`) can reach the function. -/
inductive WeatherInput where
  | pydict (entries : List (String × Scalar))
  | pyint (n : Int)
  | pynone
  deriving DecidableEq, Repr

/-- Python truthiness of a `WeatherInput`, as tested by
`if not weather_data`. -/
def pyTruthy : WeatherInput → Bool
  | .pydict entries => !entries.isEmpty
  | .pyint n => n != 0
  | .pynone => false

/-- The weather schema of `validate_weather_data`. -/
def weatherSchema : List (String × Expected) :=
  [("city", .single .str), ("temperature", .tuple [.int, .float]),
   ("humidity", .single .int), ("pressure", .single .int),
   ("timestamp", .tuple [.str, .datetime]), ("source", .single .str)]

/-- The outcome of calling `validate_dict` on a dynamically typed input:
on a dict it returns normally; on a non-iterable value (`int`, `None`), the
first membership test `field not in data_dict` raises a `TypeError`
(modelled as `.error`), except that an empty schema never iterates and so
never raises. -/
def validate_dict_obj (obj : WeatherInput) (schema : List (String × Expected)) :
    Except String (Bool × DictDetails) :=
  match obj with
  | .pydict entries => .ok (validate_dict entries schema)
  | .pyint _ =>
      if schema.isEmpty then .ok (validate_dict [] schema)
      else .error "argument of type int is not iterable"
  | .pynone =>
      if schema.isEmpty then .ok (validate_dict [] schema)
      else .error "argument of type NoneType is not iterable"

/-- A value stored in `APIValidator.results`: the weather path stores the
bare `details` dict (which has no `validation_passed` key); the tabular
paths store the full result dict of `run_all_checks` (augmented with
`records_validated`). -/
inductive Stored where
  | weatherDetails (d : DictDetails)
  | domainReport (passed : Bool) (records : Nat) (issues : List String)
      (detailed : List (String × CheckOutput))
  deriving DecidableEq, Repr

/-- `result.get('validation_passed', False)` on a stored result. -/
def storedValidationPassed : Stored → Bool
  | .weatherDetails _ => false
  | .domainReport passed _ _ _ => passed

/-- The `APIValidator` instance state: its `results` dictionary, modelled as
an insertion-ordered association list with unique keys. -/
structure APIValidator where
  results : List (String × Stored)
  deriving DecidableEq, Repr

/-- Python dict assignment `m[k] = v`: replace in place when the key exists,
append otherwise. -/
def setKey {α : Type} (m : List (String × α)) (k : String) (v : α) :
    List (String × α) :=
  if m.any (fun p => p.1 == k) then
    m.map (fun p => if p.1 == k then (k, v) else p)
  else m ++ [(k, v)]

/-- The second component of `validate_weather_data`'s return value: the
`details` dict on a normal return, or an `{'error': msg}` dict. -/
inductive WeatherOut where
  | details (d : DictDetails)
  | errorDict (msg : String)
  deriving DecidableEq, Repr

/-- `APIValidator.validate_weather_data`, parameterised over the outcome of
the `validate_dict` call guarded by its `try` block (`.error e` = the call
raised with description `e`).  On a raise, nothing is stored and the caller
receives `(False, {'error': str(e)})`. -/
def validate_weather_data_with
    (run : WeatherInput → List (String × Expected) → Except String (Bool × DictDetails))
    (st : APIValidator) (weather_data : WeatherInput) :
    (Bool × WeatherOut) × APIValidator :=
  if !pyTruthy weather_data then
    ((false, .errorDict "Empty or None weather data"), st)
  else
    match run weather_data weatherSchema with
    | .ok (is_valid, details) =>
        ((is_valid, .details details),
         { results := setKey st.results "weather_data" (.weatherDetails details) })
    | .error e => ((false, .errorDict e), st)

/-- `APIValidator.validate_weather_data` proper. -/
def validate_weather_data (st : APIValidator) (weather_data : WeatherInput) :
    (Bool × WeatherOut) × APIValidator :=
  validate_weather_data_with validate_dict_obj st weather_data

/-- The result dictionary a tabular validation entry returns: either the
`run_all_checks` report augmented with `records_validated`, or the synthetic
error dict `{'validation_passed': False, 'details': ..., 'records_validated': 0}`
(whose `details` key the report-shaped results lack, hence `Option`). -/
structure DomainResult where
  validation_passed : Bool
  details : Option String
  records_validated : Nat
  issues_found : Option (List String)
  detailed_results : Option (List (String × CheckOutput))
  deriving DecidableEq, Repr

/-- The synthetic failed result for an empty or `None` DataFrame. -/
def emptyDomainResult : DomainResult :=
  { validation_passed := false, details := some "Empty or None DataFrame provided"
  , records_validated := 0, issues_found := none, detailed_results := none }

/-- Common shape of `validate_cryptocurrencies_data` / `validate_posts_data`,
parameterised over the outcome of the `try`-guarded construction-and-run of
the `DataQualityChecker` (`.error e` = that body raised with description
`e`).  Empty/`None` input short-circuits before `run` is consulted; a raise
is converted to the failed error dict; on success the report (with
`records_validated` added) is stored under `key` and returned. -/
def validate_tabular_with (run : DataFrame → Except String Report) (key : String)
    (st : APIValidator) (input : Option DataFrame) : DomainResult × APIValidator :=
  match input with
  | none => (emptyDomainResult, st)
  | some df =>
      if df.nrows == 0 then (emptyDomainResult, st)
      else
        match run df with
        | .ok r =>
            let res : DomainResult :=
              { validation_passed := r.validation_passed, details := none
              , records_validated := df.nrows
              , issues_found := some r.issues_found
              , detailed_results := some r.detailed_results }
            let stored := Stored.domainReport res.validation_passed
              res.records_validated r.issues_found r.detailed_results
            (res, { results := setKey st.results key stored })
        | .error e =>
            ({ validation_passed := false, details := some e, records_validated := 0
             , issues_found := none, detailed_results := none }, st)

/-- The crypto schema of `validate_cryptocurrencies_data`. -/
def cryptoExpectedTypes : List (String × DtypeSpec) :=
  [("symbol", .single "object"), ("name", .single "object"),
   ("current_price", .tuple ["float64", "int64"]),
   ("market_cap", .tuple ["int64", "float64"]),
   ("market_cap_rank", .tuple ["int64", "float64"]),
   ("trading_volume_24h", .tuple ["int64", "float64"]),
   ("price_change_24h", .tuple ["float64", "int64"])]

/-- The body of the crypto `try` block: construct a fresh checker bound to
the frame (empty issue log) and run all checks at the default threshold. -/
def cryptoRun (df : DataFrame) : Except String Report :=
  .ok (run_all_checks ⟨some df, []⟩ (some cryptoExpectedTypes) (mkRat 1 2)).1

/-- `APIValidator.validate_cryptocurrencies_data`. -/
def validate_cryptocurrencies_data (st : APIValidator) (input : Option DataFrame) :
    DomainResult × APIValidator :=
  validate_tabular_with cryptoRun "cryptocurrencies_data" st input

/-- The posts schema of `validate_posts_data`. -/
def postsExpectedTypes : List (String × DtypeSpec) :=
  [("post_id", .single "int64"), ("user_id", .single "int64"),
   ("title", .single "object"), ("body", .single "object"),
   ("word_count", .single "int64")]

/-- The body of the posts `try` block. -/
def postsRun (df : DataFrame) : Except String Report :=
  .ok (run_all_checks ⟨some df, []⟩ (some postsExpectedTypes) (mkRat 1 2)).1

/-- `APIValidator.validate_posts_data`. -/
def validate_posts_data (st : APIValidator) (input : Option DataFrame) :
    DomainResult × APIValidator :=
  validate_tabular_with postsRun "posts_data" st input

/-- The aggregate returned by `validate_all` (the wall-clock `timestamp`
field is omitted from the model); each `validations` entry is present iff
the corresponding argument was not `None`. -/
structure AllResults where
  weather : Option (Bool × WeatherOut)
  cryptocurrencies : Option DomainResult
  posts : Option DomainResult
  overall_passed : Bool
  deriving DecidableEq, Repr

/-- `APIValidator.validate_all`: validate each supplied source in turn and
AND the verdicts into `overall_passed` (missing sources do not count). -/
def validate_all (st : APIValidator) (weather_data : Option WeatherInput)
    (crypto_df : Option DataFrame) (posts_df : Option DataFrame) :
    AllResults × APIValidator :=
  let w := match weather_data with
    | none => (none, st)
    | some wd =>
        let r := validate_weather_data st wd
        (some r.1, r.2)
  let c := match crypto_df with
    | none => (none, w.2)
    | some df =>
        let r := validate_cryptocurrencies_data w.2 (some df)
        (some r.1, r.2)
  let p := match posts_df with
    | none => (none, c.2)
    | some df =>
        let r := validate_posts_data c.2 (some df)
        (some r.1, r.2)
  let overall := (match w.1 with | some res => res.1 | none => true)
    && (match c.1 with | some res => res.validation_passed | none => true)
    && (match p.1 with | some res => res.validation_passed | none => true)
  ({ weather := w.1, cryptocurrencies := c.1, posts := p.1, overall_passed := overall }, p.2)

/-- The dictionary returned by `get_validation_summary`. -/
@[ext]
structure Summary where
  total_validations : Nat
  passed : Nat
  failed : Nat
  details : List (String × Stored)
  deriving DecidableEq, Repr

/-- `APIValidator.get_validation_summary`: count each stored result as
passed or failed by `result.get('validation_passed', False)`. -/
def get_validation_summary (st : APIValidator) : Summary :=
  st.results.foldl
    (fun acc p =>
      if storedValidationPassed p.2 then { acc with passed := acc.passed + 1 }
      else { acc with failed := acc.failed + 1 })
    { total_validations := st.results.length, passed := 0, failed := 0
    , details := st.results }

/-- `APIValidator.clear_results`. -/
def clear_results (_ : APIValidator) : APIValidator := { results := [] }

/-! ## Concrete frames and records used to ground the theorems -/

/-- 4-row frame whose column `a` has 2 of 4 entries missing. -/
def dfMissing2of4 : DataFrame :=
  ⟨[⟨"a", "float64", [none, none, some (.float 1), some (.float 2)]⟩,
    ⟨"b", "int64", [some (.int 1), some (.int 2), some (.int 3), some (.int 4)]⟩]⟩

/-- 4-row frame whose column `a` has 3 of 4 entries missing. -/
def dfMissing3of4 : DataFrame :=
  ⟨[⟨"a", "float64", [none, none, none, some (.float 2)]⟩,
    ⟨"b", "int64", [some (.int 1), some (.int 2), some (.int 3), some (.int 4)]⟩]⟩

/-- 4-row frame failing only the missing-value check (no duplicate rows). -/
def dfA : DataFrame :=
  ⟨[⟨"a", "float64", [none, none, none, some (.float 1)]⟩,
    ⟨"b", "int64", [some (.int 1), some (.int 2), some (.int 3), some (.int 4)]⟩]⟩

/-- Like `dfA` but with its first two rows equal, so it additionally fails
the duplicate check while the other check outputs are unchanged. -/
def dfB : DataFrame :=
  ⟨[⟨"a", "float64", [none, none, none, some (.float 1)]⟩,
    ⟨"b", "int64", [some (.int 1), some (.int 1), some (.int 3), some (.int 4)]⟩]⟩

/-- One-column frame of three identical rows (two duplicates). -/
def dfDup : DataFrame :=
  ⟨[⟨"x", "int64", [some (.int 1), some (.int 1), some (.int 1)]⟩]⟩

/-- One-column, one-row frame that passes every type-free check. -/
def dfGood : DataFrame := ⟨[⟨"a", "int64", [some (.int 1)]⟩]⟩

/-- A weather record satisfying `weatherSchema`. -/
def goodWeather : WeatherInput :=
  .pydict [("city", .str "London"), ("temperature", .float (mkRat 51 2)),
    ("humidity", .int 60), ("pressure", .int 1013),
    ("timestamp", .datetime "2026-01-04"), ("source", .str "weather_api")]

/-- The two-field schema of the structured-validation example. -/
def schemaCityHumidity : List (String × Expected) :=
  [("city", .single .str), ("humidity", .single .int)]

/-- The record `{city: "London", humidity: 60}`. -/
def recLondon : List (String × Scalar) := [("city", .str "London"), ("humidity", .int 60)]

/-- `recLondon` with `humidity` removed. -/
def recLondonNoHumidity : List (String × Scalar) := [("city", .str "London")]

/-! ## Helper lemmas about the checker -/

/-- The messages a failing check contributes to the log. -/
def failLog (out : CheckOutput) : List String :=
  if out.passed then [] else [out.message]

theorem logIfFailed_data (c : DataQualityChecker) (out : CheckOutput) :
    (logIfFailed c out).data = c.data := by
  unfold logIfFailed; split <;> rfl

theorem logIfFailed_issues (c : DataQualityChecker) (out : CheckOutput) :
    (logIfFailed c out).issues = c.issues ++ failLog out := by
  unfold logIfFailed failLog; split <;> simp

theorem check_missing_values_fst (c : DataQualityChecker) (t : Rat) :
    (check_missing_values c t).1 = missingValuesResult c.data t := by
  unfold check_missing_values
  cases c.data <;> rfl

theorem check_missing_values_data (c : DataQualityChecker) (t : Rat) :
    (check_missing_values c t).2.data = c.data := by
  unfold check_missing_values
  cases h : c.data <;> simp [logIfFailed_data, h]

theorem check_duplicates_fst (c : DataQualityChecker) :
    (check_duplicates c).1 = duplicatesResult c.data := by
  unfold check_duplicates
  cases c.data <;> rfl

theorem check_duplicates_data (c : DataQualityChecker) :
    (check_duplicates c).2.data = c.data := by
  unfold check_duplicates
  cases h : c.data <;> simp [logIfFailed_data, h]

theorem check_data_types_fst (c : DataQualityChecker) (et : List (String × DtypeSpec)) :
    (check_data_types c et).1 = dataTypesResult c.data et := by
  unfold check_data_types
  cases c.data <;> rfl

theorem check_data_types_data (c : DataQualityChecker) (et : List (String × DtypeSpec)) :
    (check_data_types c et).2.data = c.data := by
  unfold check_data_types
  cases h : c.data <;> simp [logIfFailed_data, h]

theorem check_empty_dataset_fst (c : DataQualityChecker) :
    (check_empty_dataset c).1 = emptyDatasetResult c.data := by
  unfold check_empty_dataset
  cases c.data <;> rfl

theorem check_empty_dataset_data (c : DataQualityChecker) :
    (check_empty_dataset c).2.data = c.data := by
  unfold check_empty_dataset
  cases h : c.data <;> simp [logIfFailed_data, h]

/-- The issue-log entries one full `run_all_checks` pass appends, as a
function of the bound data (nothing is appended when no data is bound,
because every check early-returns before its logging statement). -/
def newIssues (d : Option DataFrame) (et : Option (List (String × DtypeSpec)))
    (t : Rat) : List String :=
  match d with
  | none => []
  | some df =>
      failLog (emptyDatasetResult (some df)) ++ failLog (missingValuesResult (some df) t)
        ++ failLog (duplicatesResult (some df))
        ++ (match et with
            | some (s :: ss) => failLog (dataTypesResult (some df) (s :: ss))
            | _ => [])

theorem check_missing_values_issues (c : DataQualityChecker) (t : Rat) :
    (check_missing_values c t).2.issues =
      c.issues ++ (match c.data with
        | none => []
        | some df => failLog (missingValuesResult (some df) t)) := by
  unfold check_missing_values
  cases h : c.data <;> simp [logIfFailed_issues, h]

theorem check_duplicates_issues (c : DataQualityChecker) :
    (check_duplicates c).2.issues =
      c.issues ++ (match c.data with
        | none => []
        | some df => failLog (duplicatesResult (some df))) := by
  unfold check_duplicates
  cases h : c.data <;> simp [logIfFailed_issues, h]

theorem check_data_types_issues (c : DataQualityChecker) (et : List (String × DtypeSpec)) :
    (check_data_types c et).2.issues =
      c.issues ++ (match c.data with
        | none => []
        | some df => failLog (dataTypesResult (some df) et)) := by
  unfold check_data_types
  cases h : c.data <;> simp [logIfFailed_issues, h]

theorem check_empty_dataset_issues (c : DataQualityChecker) :
    (check_empty_dataset c).2.issues =
      c.issues ++ (match c.data with
        | none => []
        | some df => failLog (emptyDatasetResult (some df))) := by
  unfold check_empty_dataset
  cases h : c.data <;> simp [logIfFailed_issues, h]

/-- The per-check results of a full run, as a function of the bound data. -/
def detailedOf (d : Option DataFrame) (et : Option (List (String × DtypeSpec)))
    (t : Rat) : List (String × CheckOutput) :=
  [("empty_dataset", emptyDatasetResult d), ("missing_values", missingValuesResult d t),
   ("duplicates", duplicatesResult d)] ++
  (match et with
   | some (s :: ss) => [("data_types", dataTypesResult d (s :: ss))]
   | _ => [])

theorem run_all_checks_detailed (c : DataQualityChecker)
    (et : Option (List (String × DtypeSpec))) (t : Rat) :
    (run_all_checks c et t).1.detailed_results = detailedOf c.data et t := by
  have h1 := check_empty_dataset_data c
  have h2 := check_missing_values_data (check_empty_dataset c).2 t
  have h3 := check_duplicates_data (check_missing_values (check_empty_dataset c).2 t).2
  match et with
  | none =>
      simp [run_all_checks, detailedOf, check_empty_dataset_fst,
        check_missing_values_fst, check_duplicates_fst, h1, h2]
  | some [] =>
      simp [run_all_checks, detailedOf, check_empty_dataset_fst,
        check_missing_values_fst, check_duplicates_fst, h1, h2]
  | some (s :: ss) =>
      simp [run_all_checks, detailedOf, check_empty_dataset_fst,
        check_missing_values_fst, check_duplicates_fst, check_data_types_fst,
        h1, h2, h3]

theorem run_all_checks_passed (c : DataQualityChecker)
    (et : Option (List (String × DtypeSpec))) (t : Rat) :
    (run_all_checks c et t).1.validation_passed =
      (run_all_checks c et t).1.detailed_results.all (fun p => p.2.passed) := by
  match et with
  | none => rfl
  | some [] => rfl
  | some (s :: ss) => rfl

theorem run_all_checks_state (c : DataQualityChecker)
    (et : Option (List (String × DtypeSpec))) (t : Rat) :
    (run_all_checks c et t).2 = ⟨c.data, c.issues ++ newIssues c.data et t⟩ := by
  have h1 := check_empty_dataset_data c
  have h2 := check_missing_values_data (check_empty_dataset c).2 t
  have h3 := check_duplicates_data (check_missing_values (check_empty_dataset c).2 t).2
  have i1 := check_empty_dataset_issues c
  have i2 := check_missing_values_issues (check_empty_dataset c).2 t
  have i3 := check_duplicates_issues (check_missing_values (check_empty_dataset c).2 t).2
  cases hd : c.data with
  | none =>
      match et with
      | none =>
          apply DataQualityChecker.ext <;>
            simp [run_all_checks, newIssues, hd, h1, h2, h3, i1, i2, i3]
      | some [] =>
          apply DataQualityChecker.ext <;>
            simp [run_all_checks, newIssues, hd, h1, h2, h3, i1, i2, i3]
      | some (s :: ss) =>
          have h4 := check_data_types_data
            (check_duplicates (check_missing_values (check_empty_dataset c).2 t).2).2 (s :: ss)
          have i4 := check_data_types_issues
            (check_duplicates (check_missing_values (check_empty_dataset c).2 t).2).2 (s :: ss)
          apply DataQualityChecker.ext <;>
            simp [run_all_checks, newIssues, hd, h1, h2, h3, h4, i1, i2, i3, i4]
  | some df =>
      match et with
      | none =>
          apply DataQualityChecker.ext <;>
            simp [run_all_checks, newIssues, hd, h1, h2, h3, i1, i2, i3]
      | some [] =>
          apply DataQualityChecker.ext <;>
            simp [run_all_checks, newIssues, hd, h1, h2, h3, i1, i2, i3]
      | some (s :: ss) =>
          have h4 := check_data_types_data
            (check_duplicates (check_missing_values (check_empty_dataset c).2 t).2).2 (s :: ss)
          have i4 := check_data_types_issues
            (check_duplicates (check_missing_values (check_empty_dataset c).2 t).2).2 (s :: ss)
          apply DataQualityChecker.ext <;>
            simp [run_all_checks, newIssues, hd, h1, h2, h3, h4, i1, i2, i3, i4]

theorem run_all_checks_issues_found (c : DataQualityChecker)
    (et : Option (List (String × DtypeSpec))) (t : Rat) :
    (run_all_checks c et t).1.issues_found = c.issues ++ newIssues c.data et t := by
  have hs := run_all_checks_state c et t
  have : (run_all_checks c et t).1.issues_found = (run_all_checks c et t).2.issues := by
    match et with
    | none => rfl
    | some [] => rfl
    | some (s :: ss) => rfl
  rw [this, hs]

/-! ## Dtype invariance of the type-free checks -/

/-- Reassign every column's dtype tag, keeping names and cells. -/
def setDtypes (f : String → String) (df : DataFrame) : DataFrame :=
  ⟨df.columns.map (fun c => ⟨c.name, f c.dtype, c.values⟩)⟩

theorem nrows_setDtypes (f : String → String) (df : DataFrame) :
    (setDtypes f df).nrows = df.nrows := by
  cases df with
  | mk cols => cases cols <;> rfl

theorem row_setDtypes (f : String → String) (df : DataFrame) (i : Nat) :
    (setDtypes f df).row i = df.row i := by
  cases df with
  | mk cols => simp [DataFrame.row, setDtypes, List.map_map]

theorem duplicateCount_setDtypes (f : String → String) (df : DataFrame) :
    duplicateCount (setDtypes f df) = duplicateCount df := by
  simp [duplicateCount, nrows_setDtypes, row_setDtypes]

theorem missingFraction_setDtypes (f : String → String) (df : DataFrame) (c : Column) :
    missingFraction (setDtypes f df) ⟨c.name, f c.dtype, c.values⟩ = missingFraction df c := by
  simp [missingFraction, nrows_setDtypes]

theorem emptyDatasetResult_setDtypes (f : String → String) (df : DataFrame) :
    emptyDatasetResult (some (setDtypes f df)) = emptyDatasetResult (some df) := by
  simp [emptyDatasetResult, nrows_setDtypes]

theorem duplicatesResult_setDtypes (f : String → String) (df : DataFrame) :
    duplicatesResult (some (setDtypes f df)) = duplicatesResult (some df) := by
  simp [duplicatesResult, duplicateCount_setDtypes]

theorem missingValuesResult_setDtypes (f : String → String) (df : DataFrame) (t : Rat) :
    missingValuesResult (some (setDtypes f df)) t = missingValuesResult (some df) t := by
  have hfrac : ∀ c : Column,
      missingFraction (setDtypes f df) ⟨c.name, f c.dtype, c.values⟩ = missingFraction df c :=
    missingFraction_setDtypes f df
  have hfilter : (setDtypes f df).columns.filter
        (fun col => t < missingFraction (setDtypes f df) col)
      = (df.columns.filter (fun col => t < missingFraction df col)).map
          (fun c => ⟨c.name, f c.dtype, c.values⟩) := by
    show (df.columns.map (fun c => (⟨c.name, f c.dtype, c.values⟩ : Column))).filter _ = _
    rw [List.filter_map]
    congr 1
    apply List.filter_congr
    intro c _
    simp only [Function.comp]
    rw [hfrac c]
  simp only [missingValuesResult]
  rw [hfilter]
  simp [List.map_map, Function.comp, hfrac]
  rfl

theorem run_all_checks_report_setDtypes (f : String → String) (df : DataFrame)
    (i : List String) (t : Rat) :
    (run_all_checks ⟨some (setDtypes f df), i⟩ none t).1
      = (run_all_checks ⟨some df, i⟩ none t).1 := by
  have hdet : detailedOf (some (setDtypes f df)) none t = detailedOf (some df) none t := by
    simp [detailedOf, emptyDatasetResult_setDtypes, duplicatesResult_setDtypes,
      missingValuesResult_setDtypes]
  have hnew : newIssues (some (setDtypes f df)) none t = newIssues (some df) none t := by
    simp [newIssues, emptyDatasetResult_setDtypes, duplicatesResult_setDtypes,
      missingValuesResult_setDtypes]
  apply Report.ext
  · rw [run_all_checks_passed, run_all_checks_passed,
      run_all_checks_detailed, run_all_checks_detailed]
    exact congrArg (fun l : List (String × CheckOutput) => l.all fun p => p.2.passed) hdet
  · rw [run_all_checks_issues_found, run_all_checks_issues_found]
    exact congrArg (fun l => i ++ l) hnew
  · rw [run_all_checks_detailed, run_all_checks_detailed]
    exact hdet

/-! ## Claim theorems -/

/-- C10: `run_all_checks` with an empty expected-types mapping returns
exactly the same report (and leaves the checker in the same state) as
`run_all_checks` with `expected_types` absent, because the guard
`if expected_types:` tests truthiness and an empty dict is falsy, so the
data-types check is skipped entirely. -/
theorem claim_C10 : ∀ (c : DataQualityChecker) (t : Rat),
    run_all_checks c (some []) t = run_all_checks c none t := by
  intro c t
  rfl

/-- C9: with `expected_types = None`, `run_all_checks` runs only the empty,
missing-values and duplicates checks: `detailed_results` has exactly those
three keys and no `data_types` entry, and the whole report is invariant
under arbitrarily reassigning every column's dtype, so the verdict can
never fail because of types. -/
theorem claim_C9 :
    (∀ (c : DataQualityChecker) (t : Rat),
      (run_all_checks c none t).1.detailed_results.map Prod.fst
        = ["empty_dataset", "missing_values", "duplicates"])
    ∧ (∀ (c : DataQualityChecker) (t : Rat),
      (run_all_checks c none t).1.detailed_results.lookup "data_types" = none)
    ∧ (∀ (f : String → String) (df : DataFrame) (i : List String) (t : Rat),
      (run_all_checks ⟨some (setDtypes f df), i⟩ none t).1
        = (run_all_checks ⟨some df, i⟩ none t).1) := by
  refine ⟨?_, ?_, run_all_checks_report_setDtypes⟩
  · intro c t
    rw [run_all_checks_detailed]
    rfl
  · intro c t
    rw [run_all_checks_detailed]
    rfl

/-- C4: a `None` or zero-row DataFrame makes the tabular entry points
return the synthetic failed result (`validation_passed = False`,
`records_validated = 0`) with the validator state untouched, for every
possible behaviour `run` of the checker — so the checker is never consulted;
likewise a falsy (empty or `None`) weather record short-circuits to
`(False, {'error': ...})` before rule evaluation. -/
theorem claim_C4 :
    (∀ (run : DataFrame → Except String Report) (key : String) (st : APIValidator),
      validate_tabular_with run key st none = (emptyDomainResult, st))
    ∧ (∀ (run : DataFrame → Except String Report) (key : String) (st : APIValidator)
        (df : DataFrame), df.nrows = 0 →
      validate_tabular_with run key st (some df) = (emptyDomainResult, st))
    ∧ (∀ (run : WeatherInput → List (String × Expected) → Except String (Bool × DictDetails))
        (st : APIValidator) (w : WeatherInput), pyTruthy w = false →
      validate_weather_data_with run st w
        = ((false, .errorDict "Empty or None weather data"), st))
    ∧ emptyDomainResult.validation_passed = false
    ∧ emptyDomainResult.records_validated = 0 := by
  refine ⟨fun run key st => rfl, ?_, ?_, rfl, rfl⟩
  · intro run key st df h
    simp [validate_tabular_with, h]
  · intro run st w h
    simp [validate_weather_data_with, h]

/-- C4 witness: concrete empty inputs at the real entry points. -/
theorem claim_C4_witness :
    validate_cryptocurrencies_data ⟨[]⟩ (some ⟨[]⟩) = (emptyDomainResult, ⟨[]⟩)
    ∧ validate_weather_data ⟨[]⟩ (.pydict [])
        = ((false, .errorDict "Empty or None weather data"), ⟨[]⟩) :=
  ⟨claim_C4.2.1 cryptoRun "cryptocurrencies_data" ⟨[]⟩ ⟨[]⟩ rfl,
   claim_C4.2.2.1 validate_dict_obj ⟨[]⟩ (.pydict []) rfl⟩

/-- C1: the validation entry points return structured results, never a
fault: whatever the guarded checker call does, a raise (`.error e`) is
caught at the orchestration boundary and converted into a failed result
carrying `e` as its details — `(False, {'error': e})` for the weather path,
`{'validation_passed': False, 'details': e, 'records_validated': 0}` for
the tabular paths; concretely, a malformed non-dict weather input degrades
to a failed result, including through `validate_all`. -/
theorem claim_C1 :
    (∀ (run : WeatherInput → List (String × Expected) → Except String (Bool × DictDetails))
        (st : APIValidator) (w : WeatherInput) (e : String),
      pyTruthy w = true → run w weatherSchema = Except.error e →
      validate_weather_data_with run st w = ((false, .errorDict e), st))
    ∧ (∀ (run : DataFrame → Except String Report) (key : String) (st : APIValidator)
        (df : DataFrame) (e : String),
      df.nrows ≠ 0 → run df = Except.error e →
      validate_tabular_with run key st (some df)
        = ({ validation_passed := false, details := some e, records_validated := 0
           , issues_found := none, detailed_results := none }, st))
    ∧ (validate_weather_data ⟨[]⟩ (.pyint 5)).1
        = (false, .errorDict "argument of type int is not iterable")
    ∧ (validate_all ⟨[]⟩ (some (.pyint 5)) none none).1.overall_passed = false := by
  refine ⟨?_, ?_, rfl, rfl⟩
  · intro run st w e hw hr
    simp [validate_weather_data_with, hw, hr]
  · intro run key st df e hn hr
    have hb : (df.nrows == 0) = false := by simpa using hn
    simp [validate_tabular_with, hb, hr]

/-- C1 witness: a guarded call that raises, discharged at concrete inputs. -/
theorem claim_C1_witness :
    validate_weather_data_with (fun _ _ => Except.error "boom") ⟨[]⟩ goodWeather
        = ((false, .errorDict "boom"), ⟨[]⟩)
    ∧ validate_tabular_with (fun _ => Except.error "boom") "posts_data" ⟨[]⟩ (some dfGood)
        = ({ validation_passed := false, details := some "boom", records_validated := 0
           , issues_found := none, detailed_results := none }, ⟨[]⟩) :=
  ⟨claim_C1.1 (fun _ _ => Except.error "boom") ⟨[]⟩ goodWeather "boom" (by decide) rfl,
   claim_C1.2.1 (fun _ => Except.error "boom") "posts_data" ⟨[]⟩ dfGood "boom"
     (by decide) rfl⟩

/-! ## The verdict as a conjunction (C2) -/

theorem run_all_checks_keys (c : DataQualityChecker)
    (et : Option (List (String × DtypeSpec))) (t : Rat) :
    (run_all_checks c et t).1.detailed_results.map Prod.fst
      = ["empty_dataset", "missing_values", "duplicates"]
        ++ (match et with
            | some (_ :: _) => ["data_types"]
            | _ => []) := by
  rw [run_all_checks_detailed]
  match et with
  | none => rfl
  | some [] => rfl
  | some (s :: ss) => rfl

theorem run_all_checks_keys_nodup (c : DataQualityChecker)
    (et : Option (List (String × DtypeSpec))) (t : Rat) :
    ((run_all_checks c et t).1.detailed_results.map Prod.fst).Nodup := by
  rw [run_all_checks_keys]
  match et with
  | none =>
      show (["empty_dataset", "missing_values", "duplicates"] ++ ([] : List String)).Nodup
      decide
  | some [] =>
      show (["empty_dataset", "missing_values", "duplicates"] ++ ([] : List String)).Nodup
      decide
  | some (s :: ss) =>
      show (["empty_dataset", "missing_values", "duplicates"] ++ ["data_types"]).Nodup
      decide

theorem all_eq_of_others_passed {l : List (String × CheckOutput)}
    (hnd : (l.map Prod.fst).Nodup) {p : String × CheckOutput} (hp : p ∈ l)
    (hothers : ∀ q ∈ l, q.1 ≠ p.1 → q.2.passed = true) :
    (l.all fun q => q.2.passed) = p.2.passed := by
  cases hpp : p.2.passed with
  | true =>
      apply List.all_eq_true.mpr
      intro q hq
      by_cases hk : q.1 = p.1
      · have hqp : q = p := List.inj_on_of_nodup_map hnd hq hp hk
        rw [hqp]
        exact hpp
      · exact hothers q hq hk
  | false =>
      cases hall : l.all fun q => q.2.passed with
      | false => rfl
      | true =>
          have := List.all_eq_true.mp hall p hp
          rw [hpp] at this
          exact absurd this (by simp)

/-- C2 (amended): `validation_passed` is true iff every constituent check in
`detailed_results` passed (logical AND over exactly the checks that were
run); and flipping a single check's outcome flips the overall verdict when
every other check passes — the verdict then equals that check's outcome. -/
theorem claim_C2_amended :
    (∀ (c : DataQualityChecker) (et : Option (List (String × DtypeSpec))) (t : Rat),
      (run_all_checks c et t).1.validation_passed = true
        ↔ ∀ p ∈ (run_all_checks c et t).1.detailed_results, p.2.passed = true)
    ∧ (∀ (c : DataQualityChecker) (et : Option (List (String × DtypeSpec))) (t : Rat),
      ∀ p ∈ (run_all_checks c et t).1.detailed_results,
        (∀ q ∈ (run_all_checks c et t).1.detailed_results, q.1 ≠ p.1 → q.2.passed = true) →
        (run_all_checks c et t).1.validation_passed = p.2.passed) := by
  constructor
  · intro c et t
    rw [run_all_checks_passed]
    exact List.all_eq_true
  · intro c et t p hp hothers
    rw [run_all_checks_passed]
    exact all_eq_of_others_passed (run_all_checks_keys_nodup c et t) hp hothers

/-- C2 counterexample: on `dfA` and `dfB` only the duplicate check's outcome
differs (the other check entries are identical dictionaries), yet the
overall verdict is `False` for both — flipping a single check's outcome
while holding the others fixed does not flip the verdict when another check
also fails. -/
theorem claim_C2_counterexample :
    ((run_all_checks ⟨some dfA, []⟩ none (mkRat 1 2)).1.detailed_results.lookup
        "duplicates").map CheckOutput.passed = some true
    ∧ ((run_all_checks ⟨some dfB, []⟩ none (mkRat 1 2)).1.detailed_results.lookup
        "duplicates").map CheckOutput.passed = some false
    ∧ (run_all_checks ⟨some dfA, []⟩ none (mkRat 1 2)).1.detailed_results.lookup
        "empty_dataset"
      = (run_all_checks ⟨some dfB, []⟩ none (mkRat 1 2)).1.detailed_results.lookup
        "empty_dataset"
    ∧ (run_all_checks ⟨some dfA, []⟩ none (mkRat 1 2)).1.detailed_results.lookup
        "missing_values"
      = (run_all_checks ⟨some dfB, []⟩ none (mkRat 1 2)).1.detailed_results.lookup
        "missing_values"
    ∧ (run_all_checks ⟨some dfA, []⟩ none (mkRat 1 2)).1.validation_passed = false
    ∧ (run_all_checks ⟨some dfB, []⟩ none (mkRat 1 2)).1.validation_passed = false := by
  decide

/-- C2 witness: on a frame where every other check passes, the verdict
equals the duplicate check's outcome. -/
theorem claim_C2_witness :
    (run_all_checks ⟨some dfGood, []⟩ none (mkRat 1 2)).1.validation_passed
      = (duplicatesResult (some dfGood)).passed :=
  claim_C2_amended.2 ⟨some dfGood, []⟩ none (mkRat 1 2)
    ("duplicates", duplicatesResult (some dfGood)) (by decide) (by decide)

/-! ## Repeated runs (C3) -/

theorem newIssues_nil_of_passed (c : DataQualityChecker)
    (et : Option (List (String × DtypeSpec))) (t : Rat)
    (h : (run_all_checks c et t).1.validation_passed = true) :
    newIssues c.data et t = [] := by
  rw [run_all_checks_passed, run_all_checks_detailed] at h
  cases hd : c.data with
  | none => rfl
  | some df =>
      rw [hd] at h
      match et with
      | none =>
          simp [detailedOf, List.all_eq_true] at h
          obtain ⟨h1, h2, h3⟩ := h
          simp [newIssues, failLog, h1, h2, h3]
      | some [] =>
          simp [detailedOf, List.all_eq_true] at h
          obtain ⟨h1, h2, h3⟩ := h
          simp [newIssues, failLog, h1, h2, h3]
      | some (s :: ss) =>
          simp [detailedOf, List.all_eq_true] at h
          obtain ⟨h1, h2, h3, h4⟩ := h
          simp [newIssues, failLog, h1, h2, h3, h4]

/-- C3 (amended): a second `run_all_checks` call on the same checker with
the same schema and threshold reproduces the same verdict and the same
`detailed_results`, but the issue log accumulates across calls, so the full
reports (which snapshot `issues_found`) coincide when the first run passed
— not in general. -/
theorem claim_C3_amended : ∀ (c : DataQualityChecker)
    (et : Option (List (String × DtypeSpec))) (t : Rat),
    (run_all_checks c et t).1.validation_passed
        = (run_all_checks (run_all_checks c et t).2 et t).1.validation_passed
    ∧ (run_all_checks c et t).1.detailed_results
        = (run_all_checks (run_all_checks c et t).2 et t).1.detailed_results
    ∧ ((run_all_checks c et t).1.validation_passed = true →
        (run_all_checks c et t).1 = (run_all_checks (run_all_checks c et t).2 et t).1) := by
  intro c et t
  have hstate := run_all_checks_state c et t
  have hdata : (run_all_checks c et t).2.data = c.data := by rw [hstate]
  refine ⟨?_, ?_, ?_⟩
  · rw [run_all_checks_passed, run_all_checks_passed, run_all_checks_detailed,
      run_all_checks_detailed, hdata]
  · rw [run_all_checks_detailed, run_all_checks_detailed, hdata]
  · intro h
    have hnil := newIssues_nil_of_passed c et t h
    apply Report.ext
    · rw [run_all_checks_passed, run_all_checks_passed, run_all_checks_detailed,
        run_all_checks_detailed, hdata]
    · rw [run_all_checks_issues_found, run_all_checks_issues_found, hdata, hnil]
      rw [hstate]
      simp [hnil]
    · rw [run_all_checks_detailed, run_all_checks_detailed, hdata]

/-- C3 counterexample: on a frame with duplicate rows, the second call's
report carries the duplicate message twice in `issues_found`, so repeated
calls on the same checker do not yield identical reports. -/
theorem claim_C3_counterexample :
    (run_all_checks ⟨some dfDup, []⟩ none (mkRat 1 2)).1.issues_found.length = 1
    ∧ (run_all_checks (run_all_checks ⟨some dfDup, []⟩ none
        (mkRat 1 2)).2 none (mkRat 1 2)).1.issues_found.length = 2
    ∧ (run_all_checks ⟨some dfDup, []⟩ none (mkRat 1 2)).1
        ≠ (run_all_checks (run_all_checks ⟨some dfDup, []⟩ none
            (mkRat 1 2)).2 none (mkRat 1 2)).1 := by
  decide

/-- C3 witness: on an all-pass frame the two successive reports coincide. -/
theorem claim_C3_witness :
    (run_all_checks ⟨some dfGood, []⟩ none (mkRat 1 2)).1
      = (run_all_checks (run_all_checks ⟨some dfGood, []⟩ none
          (mkRat 1 2)).2 none (mkRat 1 2)).1 :=
  (claim_C3_amended ⟨some dfGood, []⟩ none (mkRat 1 2)).2.2 (by decide)

/-! ## Summary counting (C5) -/

theorem lookup_setKey_found (m : List (String × Stored)) (k : String) (v : Stored)
    (h : m.any (fun p => p.1 == k) = true) :
    (m.map (fun p => if p.1 == k then (k, v) else p)).lookup k = some v := by
  induction m with
  | nil => cases h
  | cons a l ih =>
      rw [List.map_cons]
      by_cases hak : (a.1 == k) = true
      · rw [if_pos hak]
        simp [List.lookup]
      · rw [if_neg hak]
        obtain ⟨a1, a2⟩ := a
        have hka : (k == a1) = false := by
          simp only [beq_eq_false_iff_ne] at hak ⊢
          simp only [beq_iff_eq] at hak ⊢
          exact fun hh => hak hh.symm
        simp only [List.lookup, hka]
        apply ih
        rw [List.any_cons] at h
        rcases Bool.or_eq_true_iff.mp h with h1 | h2
        · exact absurd h1 hak
        · exact h2

theorem lookup_setKey_appended (m : List (String × Stored)) (k : String) (v : Stored)
    (h : m.any (fun p => p.1 == k) = false) : (m ++ [(k, v)]).lookup k = some v := by
  induction m with
  | nil => simp [List.lookup]
  | cons a l ih =>
      obtain ⟨a1, a2⟩ := a
      rw [List.any_cons] at h
      rcases Bool.or_eq_false_iff.mp h with ⟨h1, h2⟩
      have hka : (k == a1) = false := by
        simp only [beq_eq_false_iff_ne] at h1 ⊢
        exact fun hh => h1 hh.symm
      simp only [List.cons_append, List.lookup, hka]
      exact ih h2

theorem summary_foldl (l : List (String × Stored)) (acc : Summary) :
    l.foldl
      (fun acc p =>
        if storedValidationPassed p.2 then { acc with passed := acc.passed + 1 }
        else { acc with failed := acc.failed + 1 }) acc
      = { acc with
          passed := acc.passed + l.countP (fun p => storedValidationPassed p.2)
        , failed := acc.failed + l.countP (fun p => !storedValidationPassed p.2) } := by
  induction l generalizing acc with
  | nil => simp
  | cons a l ih =>
      rw [List.foldl_cons]
      cases h : storedValidationPassed a.2 <;>
        simp only [h, if_true, if_false, Bool.not_true, Bool.not_false, ih,
          List.countP_cons, h] <;>
        apply Summary.ext <;> simp [h] <;> omega

/-- C5 (amended): `get_validation_summary` tallies each stored result by
`result.get('validation_passed', False)`: a tabular (`domainReport`) entry
is counted as passed iff its validation passed, but the weather entry
stores only the `details` dict, which has no `validation_passed` key, so it
is always counted as failed — even when the weather validation passed;
results are keyed by domain name, so re-validating a domain overwrites its
entry (`setKey`). -/
theorem claim_C5_amended : ∀ st : APIValidator,
    (get_validation_summary st).total_validations = st.results.length
    ∧ (get_validation_summary st).passed
        = st.results.countP (fun p => storedValidationPassed p.2)
    ∧ (get_validation_summary st).failed
        = st.results.countP (fun p => !storedValidationPassed p.2)
    ∧ (get_validation_summary st).details = st.results
    ∧ (∀ d, storedValidationPassed (Stored.weatherDetails d) = false)
    ∧ (∀ b n i dr, storedValidationPassed (Stored.domainReport b n i dr) = b)
    ∧ (∀ (m : List (String × Stored)) (k : String) (v : Stored),
        (setKey m k v).lookup k = some v) := by
  intro st
  unfold get_validation_summary
  rw [summary_foldl]
  refine ⟨rfl, by simp, by simp, rfl, fun d => rfl, fun b n i dr => rfl, ?_⟩
  intro m k v
  unfold setKey
  split
  · rename_i hany
    exact lookup_setKey_found m k v hany
  · rename_i hany
    apply lookup_setKey_appended
    cases hx : m.any (fun p => p.1 == k)
    · rfl
    · exact absurd hx hany

/-- C5 counterexample: after a weather validation that passes, the summary
counts it as failed (0 passed, 1 failed), contradicting "counted as passed
iff that domain's validation actually passed". -/
theorem claim_C5_counterexample :
    (validate_weather_data ⟨[]⟩ goodWeather).1.1 = true
    ∧ (get_validation_summary (validate_weather_data ⟨[]⟩ goodWeather).2).passed = 0
    ∧ (get_validation_summary (validate_weather_data ⟨[]⟩ goodWeather).2).failed = 1
    ∧ (get_validation_summary
        (validate_weather_data ⟨[]⟩ goodWeather).2).total_validations = 1 := by
  decide

/-! ## Structured record validation (C6) -/

theorem lookup_eq_none_of_not_mem_keys {β : Type} (l : List (String × β)) (k : String)
    (h : k ∉ l.map Prod.fst) : l.lookup k = none := by
  induction l with
  | nil => rfl
  | cons a l ih =>
      obtain ⟨a1, a2⟩ := a
      rw [List.map_cons, List.mem_cons] at h
      push_neg at h
      have hka : (k == a1) = false := by
        simp only [beq_eq_false_iff_ne]
        exact h.1
      simp only [List.lookup, hka]
      exact ih h.2

theorem validateDictErrors_keys_sub (d : List (String × Scalar))
    (s : List (String × Expected)) (k : String)
    (hk : k ∈ (validateDictErrors d s).map Prod.fst) : k ∈ s.map Prod.fst := by
  induction s with
  | nil => cases hk
  | cons a s ih =>
      simp only [validateDictErrors, List.filterMap_cons] at hk
      rw [List.map_cons]
      cases hfe : fieldError d a.1 a.2 with
      | none =>
          rw [hfe] at hk
          simp only [Option.map_none'] at hk
          exact List.mem_cons_of_mem _ (ih hk)
      | some m =>
          rw [hfe] at hk
          simp only [Option.map_some', List.map_cons, List.mem_cons] at hk
          rcases hk with hk | hk
          · rw [hk]
            exact List.mem_cons_self _ _
          · exact List.mem_cons_of_mem _ (ih hk)

theorem validateDictErrors_lookup (d : List (String × Scalar))
    (s : List (String × Expected)) (h : (s.map Prod.fst).Nodup)
    (f : String) (e : Expected) (hm : (f, e) ∈ s) :
    (validateDictErrors d s).lookup f = fieldError d f e := by
  induction s with
  | nil => cases hm
  | cons a s ih =>
      obtain ⟨a1, a2⟩ := a
      rw [List.map_cons, List.nodup_cons] at h
      rcases List.mem_cons.mp hm with heq | hmem
      · have hf : f = a1 := congrArg Prod.fst heq
        have he : e = a2 := congrArg Prod.snd heq
        subst hf
        subst he
        simp only [validateDictErrors, List.filterMap_cons]
        cases hfe : fieldError d f e with
        | none =>
            simp only [hfe, Option.map_none']
            apply lookup_eq_none_of_not_mem_keys
            intro hk
            exact h.1 (validateDictErrors_keys_sub d s f hk)
        | some m =>
            simp only [hfe, Option.map_some']
            simp [List.lookup]
      · have hfkeys : f ∈ s.map Prod.fst := List.mem_map_of_mem Prod.fst hmem
        have hne : (f == a1) = false := by
          simp only [beq_eq_false_iff_ne]
          intro hh
          rw [hh] at hfkeys
          exact h.1 hfkeys
        simp only [validateDictErrors, List.filterMap_cons]
        cases hfe : fieldError d a1 a2 with
        | none =>
            simp only [hfe, Option.map_none']
            exact ih h.2 hmem
        | some m =>
            simp only [hfe, Option.map_some', List.lookup, hne]
            exact ih h.2 hmem

/-- C6: `validate_dict` is valid iff its per-field error map is empty, and
for each schema field the error map holds exactly the verdict of
`fieldError`: a missing-field message when the field is absent from the
record, a type-mismatch message when the present value's runtime type is
not among the expected type(s), and no entry otherwise; on the
city/humidity example it returns `(True, ...)` with `errors = None`, 2
fields validated and 2 fields passed, and dropping `humidity` yields
`(False, ...)` with a missing-field error for `humidity`. -/
theorem claim_C6 :
    (∀ (d : List (String × Scalar)) (s : List (String × Expected)),
      (validate_dict d s).1 = true ↔ validateDictErrors d s = [])
    ∧ (∀ (d : List (String × Scalar)) (s : List (String × Expected))
        (f : String) (e : Expected), (s.map Prod.fst).Nodup → (f, e) ∈ s →
      (validateDictErrors d s).lookup f = fieldError d f e)
    ∧ validate_dict recLondon schemaCityHumidity
        = (true, { errors := none, fields_validated := 2, fields_passed := 2 })
    ∧ validate_dict recLondonNoHumidity schemaCityHumidity
        = (false, { errors := some [("humidity", "Missing required field: humidity")]
                  , fields_validated := 2, fields_passed := 1 }) := by
  refine ⟨?_, fun d s f e h hm => validateDictErrors_lookup d s h f e hm,
    by decide, by decide⟩
  intro d s
  show (((validateDictErrors d s).length == 0) = true) ↔ validateDictErrors d s = []
  simp [List.length_eq_zero]

/-- C6 witness: the per-field lemma at the concrete missing-humidity
record. -/
theorem claim_C6_witness :
    (validateDictErrors recLondonNoHumidity schemaCityHumidity).lookup "humidity"
      = fieldError recLondonNoHumidity "humidity" (.single .int) :=
  claim_C6.2.1 recLondonNoHumidity schemaCityHumidity "humidity" (.single .int)
    (by decide) (by decide)

/-! ## Missing-value threshold boundary (C7) -/

theorem check_missing_values_passed_iff (i : List String) (df : DataFrame) (t : Rat) :
    (check_missing_values ⟨some df, i⟩ t).1.passed = true
      ↔ ∀ col ∈ df.columns, missingFraction df col ≤ t := by
  rw [check_missing_values_fst]
  show (missingValuesResult (some df) t).passed = true ↔ _
  simp only [missingValuesResult]
  simp [List.length_eq_zero, List.filter_eq_nil_iff, not_lt]

/-- C7: `check_missing_values` on a bound frame passes iff no column's
missing fraction exceeds the threshold — the bound is exclusive, so a
column exactly at the threshold passes (2 missing of 4 rows at threshold
1/2 passes, 3 of 4 fails), and at threshold 0 it passes iff no column has
any missing value. -/
theorem claim_C7 :
    (∀ (i : List String) (df : DataFrame) (t : Rat),
      (check_missing_values ⟨some df, i⟩ t).1.passed = true
        ↔ ∀ col ∈ df.columns, missingFraction df col ≤ t)
    ∧ (∀ (i : List String) (df : DataFrame), 0 < df.nrows →
      ((check_missing_values ⟨some df, i⟩ 0).1.passed = true
        ↔ ∀ col ∈ df.columns, col.values.countP (fun v => v.isNone) = 0))
    ∧ (check_missing_values ⟨some dfMissing2of4, []⟩ (mkRat 1 2)).1.passed = true
    ∧ (check_missing_values ⟨some dfMissing3of4, []⟩ (mkRat 1 2)).1.passed = false := by
  refine ⟨check_missing_values_passed_iff, ?_, by decide, by decide⟩
  intro i df hrows
  rw [check_missing_values_passed_iff]
  apply forall₂_congr
  intro col _
  unfold missingFraction
  rw [Rat.mkRat_eq_div]
  have hn : (0 : Rat) < (df.nrows : Nat) := by exact_mod_cast hrows
  constructor
  · intro hle
    have hnonneg : (0 : Rat)
        ≤ ((col.values.countP (fun v => v.isNone) : Int) : Rat) / ((df.nrows : Nat) : Rat) := by
      apply div_nonneg
      · positivity
      · exact le_of_lt hn
    have hz := le_antisymm hle hnonneg
    rw [div_eq_zero_iff] at hz
    rcases hz with hnum | hden
    · exact_mod_cast hnum
    · exact absurd hden (ne_of_gt hn)
  · intro hz
    rw [hz]
    simp

/-- C7 witness: the threshold-0 characterisation at a concrete 4-row
frame. -/
theorem claim_C7_witness :
    (check_missing_values ⟨some dfMissing2of4, []⟩ 0).1.passed = true
      ↔ ∀ col ∈ dfMissing2of4.columns, col.values.countP (fun v => v.isNone) = 0 :=
  claim_C7.2.1 [] dfMissing2of4 (by decide)

/-! ## Issue-log discipline (C8) -/

/-- C8 (amended): on a checker with bound data, every individual check
appends its message to the issue log exactly when it fails and leaves the
log unchanged when it passes (and nothing ever removes entries — the
checker has no reset operation at all); but when no data is bound, each
check early-returns a failed result without touching the log, so a failed
check does not always log. -/
theorem claim_C8_amended :
    (∀ (c : DataQualityChecker) (df : DataFrame) (t : Rat), c.data = some df →
      ((check_missing_values c t).1.passed = false →
        (check_missing_values c t).2.issues
          = c.issues ++ [(check_missing_values c t).1.message])
      ∧ ((check_missing_values c t).1.passed = true →
        (check_missing_values c t).2.issues = c.issues))
    ∧ (∀ (c : DataQualityChecker) (df : DataFrame), c.data = some df →
      ((check_duplicates c).1.passed = false →
        (check_duplicates c).2.issues = c.issues ++ [(check_duplicates c).1.message])
      ∧ ((check_duplicates c).1.passed = true →
        (check_duplicates c).2.issues = c.issues))
    ∧ (∀ (c : DataQualityChecker) (df : DataFrame) (et : List (String × DtypeSpec)),
        c.data = some df →
      ((check_data_types c et).1.passed = false →
        (check_data_types c et).2.issues = c.issues ++ [(check_data_types c et).1.message])
      ∧ ((check_data_types c et).1.passed = true →
        (check_data_types c et).2.issues = c.issues))
    ∧ (∀ (c : DataQualityChecker) (df : DataFrame), c.data = some df →
      ((check_empty_dataset c).1.passed = false →
        (check_empty_dataset c).2.issues = c.issues ++ [(check_empty_dataset c).1.message])
      ∧ ((check_empty_dataset c).1.passed = true →
        (check_empty_dataset c).2.issues = c.issues))
    ∧ (∀ (c : DataQualityChecker) (t : Rat) (et : List (String × DtypeSpec)),
        c.data = none →
      (check_missing_values c t).1.passed = false ∧ (check_missing_values c t).2 = c
      ∧ (check_duplicates c).1.passed = false ∧ (check_duplicates c).2 = c
      ∧ (check_data_types c et).1.passed = false ∧ (check_data_types c et).2 = c
      ∧ (check_empty_dataset c).1.passed = false ∧ (check_empty_dataset c).2 = c) := by
  refine ⟨?_, ?_, ?_, ?_, ?_⟩
  · intro c df t h
    constructor
    · intro hp
      rw [check_missing_values_fst, h] at hp
      rw [check_missing_values_issues, check_missing_values_fst, h]
      simp [failLog, hp]
    · intro hp
      rw [check_missing_values_fst, h] at hp
      rw [check_missing_values_issues, h]
      simp [failLog, hp]
  · intro c df h
    constructor
    · intro hp
      rw [check_duplicates_fst, h] at hp
      rw [check_duplicates_issues, check_duplicates_fst, h]
      simp [failLog, hp]
    · intro hp
      rw [check_duplicates_fst, h] at hp
      rw [check_duplicates_issues, h]
      simp [failLog, hp]
  · intro c df et h
    constructor
    · intro hp
      rw [check_data_types_fst, h] at hp
      rw [check_data_types_issues, check_data_types_fst, h]
      simp [failLog, hp]
    · intro hp
      rw [check_data_types_fst, h] at hp
      rw [check_data_types_issues, h]
      simp [failLog, hp]
  · intro c df h
    constructor
    · intro hp
      rw [check_empty_dataset_fst, h] at hp
      rw [check_empty_dataset_issues, check_empty_dataset_fst, h]
      simp [failLog, hp]
    · intro hp
      rw [check_empty_dataset_fst, h] at hp
      rw [check_empty_dataset_issues, h]
      simp [failLog, hp]
  · intro c t et h
    obtain ⟨cd, ci⟩ := c
    cases h
    exact ⟨rfl, rfl, rfl, rfl, rfl, rfl, rfl, rfl⟩

/-- C8 counterexample: with no data bound, `check_duplicates` returns
`passed = False` yet appends nothing to the issue log, refuting "whenever a
check returns passed = False it appends its message". -/
theorem claim_C8_counterexample :
    (check_duplicates ⟨none, []⟩).1.passed = false
    ∧ (check_duplicates ⟨none, []⟩).2.issues = []
    ∧ (check_duplicates ⟨none, []⟩).2.issues
        ≠ [] ++ [(check_duplicates ⟨none, []⟩).1.message] := by
  decide

/-- C8 witness: a failing duplicate check on bound data appends its message
to a non-empty pre-existing log. -/
theorem claim_C8_witness :
    (check_duplicates ⟨some dfDup, ["old"]⟩).2.issues
      = ["old"] ++ [(check_duplicates ⟨some dfDup, ["old"]⟩).1.message] :=
  (claim_C8_amended.2.1 ⟨some dfDup, ["old"]⟩ dfDup rfl).1 (by decide)

end DataQuality
